import Mathlib

/-
Verification development for the cs258-a3 repository.

The repository's spec describes a virtual network emulation engine
(Namespace Manager, Link Fabric, Address & Route Table, Switch/Flow
Engine, Command Executor, Topology Orchestrator).  The two scripts under
src/ (exp1.py, exp2.py) are callers of that engine; the engine core
itself is not part of src/.  Components absent from src/ are therefore
modelled from the spec text, while the script-level behavior (probe
sequences, result-file construction) is embedded directly from the
source of exp1.py and exp2.py.
-/

set_option autoImplicit false

namespace NetEngine

/-! ## Switch/Flow Engine (spec section 4.4) -/

/-- Packet fields: named L2/L3 field values carried by a packet. -/
abbrev PacketFields := List (String × String)

/-- Modelled from the spec: a flow-rule action, one of drop, output(port),
flood (spec section 3, "Flow rule"); the Switch/Flow Engine is absent from src/. -/
inductive Action where
  | drop
  | output (port : Nat)
  | flood
  deriving DecidableEq, Repr

/-- Modelled from the spec: a match predicate over the ingress port and
optionally other L2/L3 fields (spec section 3); absent from src/. -/
structure FlowMatch where
  inPort : Option Nat
  fieldEqs : List (String × String)
  deriving DecidableEq, Repr

/-- A match predicate holds when its optional ingress-port constraint equals
the actual ingress port and every required field/value pair is present. -/
def FlowMatch.matches (m : FlowMatch) (ingress : Nat) (pkt : PacketFields) : Bool :=
  (match m.inPort with
   | none => true
   | some p => p == ingress) &&
  m.fieldEqs.all (fun fv => pkt.contains fv)

/-- Modelled from the spec: a flow rule (priority, match predicate, action)
owned by a switch (spec section 3); absent from src/. -/
structure FlowRule where
  priority : Nat
  matchPred : FlowMatch
  action : Action
  deriving DecidableEq, Repr

/-- Modelled from the spec: the per-switch state of the Switch/Flow Engine:
its ports, its explicit flow table, whether it is in learning mode and the
learned destination-to-port bindings (spec section 4.4); absent from src/. -/
structure Switch where
  ports : List Nat
  rules : List FlowRule
  learning : Bool
  learned : List (String × Nat)
  deriving DecidableEq, Repr

/-- The first match of the descending-priority iteration over explicit rules:
the highest-priority matching rule, ties resolved in favour of the earlier
rule in the table. -/
def bestMatch (ingress : Nat) (pkt : PacketFields) (rs : List FlowRule) :
    Option FlowRule :=
  (rs.filter (fun r => r.matchPred.matches ingress pkt)).argmax FlowRule.priority

/-- Destination field of a packet, the key used for learned bindings. -/
def destOf (pkt : PacketFields) : Option String :=
  List.lookup "dst" pkt

/-- Modelled from the spec: `evaluate(switch, ingressPort, packetFields)`
iterates explicit rules in descending-priority order, first predicate match
wins; if none match it falls back to the normal action: output to the
learned destination port when the switch is in learning mode and holds a
binding, otherwise flood (spec section 4.4); absent from src/. -/
def evaluate (sw : Switch) (ingress : Nat) (pkt : PacketFields) : Action :=
  match bestMatch ingress pkt sw.rules with
  | some r => r.action
  | none =>
    if sw.learning then
      match destOf pkt with
      | some d =>
        match List.lookup d sw.learned with
        | some p => Action.output p
        | none => Action.flood
      | none => Action.flood
    else Action.flood

/-- Ports a packet leaves on, given the chosen action: flooding sends to
every port except the ingress port. -/
def egressPorts (sw : Switch) (ingress : Nat) : Action → List Nat
  | Action.drop => []
  | Action.output p => [p]
  | Action.flood => sw.ports.filter (fun p => p != ingress)

/-- The single explicit rule (priority=100, in_port=2, drop) from the spec's
flow-evaluation-precedence test, on a three-port switch. -/
def dropPort2Switch : Switch :=
  { ports := [1, 2, 3]
    rules := [{ priority := 100, matchPred := { inPort := some 2, fieldEqs := [] },
                action := Action.drop }]
    learning := false
    learned := [] }

/-- A learning-mode switch with no explicit rules and one learned binding. -/
def learnSwitch : Switch :=
  { ports := [1, 2, 3]
    rules := []
    learning := true
    learned := [("aa:bb", 3)] }

/-- A switch whose only explicit rule has priority 0, in learning mode with
a binding that would otherwise redirect the packet. -/
def prio0Switch : Switch :=
  { ports := [1, 2, 3]
    rules := [{ priority := 0, matchPred := { inPort := none, fieldEqs := [] },
                action := Action.drop }]
    learning := true
    learned := [("aa:bb", 3)] }

/-! ## Address & Route Table (spec section 4.3) -/

/-- Modelled from the spec: a destination IP pattern, an address together
with a pattern length in bits out of 32 (spec section 3, "Route entry");
absent from src/. -/
structure RoutePat where
  addr : Nat
  len : Nat
  deriving DecidableEq, Repr

/-- A destination IP matches a pattern when both agree on the pattern's
leading `len` bits. -/
def patMatches (p : RoutePat) (dest : Nat) : Bool :=
  dest / 2 ^ (32 - p.len) == p.addr / 2 ^ (32 - p.len)

/-- Modelled from the spec: a next hop is either "direct" delivery or a
gateway address (spec section 3); absent from src/. -/
inductive NextHop where
  | direct
  | via (addr : Nat)
  deriving DecidableEq, Repr

/-- Modelled from the spec: a route entry (destination pattern, next hop)
belonging to a node (spec section 3); absent from src/. -/
structure RouteEntry where
  dst : RoutePat
  nextHop : NextHop
  deriving DecidableEq, Repr

/-- The longest-pattern match over a route table: the matching entry with
the greatest pattern length, ties resolved in favour of the earlier entry. -/
def bestRoute (dest : Nat) (rt : List RouteEntry) : Option RouteEntry :=
  (rt.filter (fun e => patMatches e.dst dest)).argmax (fun e => e.dst.len)

/-- Modelled from the spec: `resolveRoute(node, destIP)` performs a
longest-pattern match over the node's route table and returns `none`
rather than raising when no entry matches (spec section 4.3); absent from
src/. -/
def resolveRoute (rt : List RouteEntry) (dest : Nat) : Option NextHop :=
  (bestRoute dest rt).map RouteEntry.nextHop

/-- The numeric value of IPv4 address 10.0.0.0. -/
def ip_10_0_0_0 : Nat := 10 * 2 ^ 24

/-- The numeric value of IPv4 address 10.0.0.5. -/
def ip_10_0_0_5 : Nat := 10 * 2 ^ 24 + 5

/-- The spec's longest-pattern-match example table: a /24 route and a /16
route for the same base address, with distinct next hops. -/
def demoRouteTable : List RouteEntry :=
  [{ dst := { addr := ip_10_0_0_0, len := 24 }, nextHop := NextHop.via 42 },
   { dst := { addr := ip_10_0_0_0, len := 16 }, nextHop := NextHop.via 7 }]

/-! ## Topology Orchestrator (spec sections 4.6, 3) -/

/-- Modelled from the spec: the orchestrator's per-instance lifecycle state
(spec section 4.6); absent from src/. -/
inductive TopoState where
  | building
  | running
  | stopped
  | failed
  deriving DecidableEq, Repr

/-- A teardown-side-effect record: which resource was destroyed. -/
inductive Resource where
  | link (id : Nat)
  | node (name : String)
  deriving DecidableEq, Repr

/-- Modelled from the spec: a topology instance owned by the Orchestrator:
lifecycle state, the live nodes and live links in creation order, and the
log of destroy side effects in the order they happened (spec sections 3,
4.6); absent from src/. -/
structure Orch where
  state : TopoState
  liveNodes : List String
  liveLinks : List Nat
  destroySeq : List Resource
  deriving DecidableEq, Repr

/-- A fresh instance entering the Building phase. -/
def initOrch : Orch :=
  { state := TopoState.building, liveNodes := [], liveLinks := [], destroySeq := [] }

/-- Modelled from the spec: teardown destroys links, then nodes, each in
reverse creation order, and releases every live resource (spec section 3);
absent from src/. -/
def teardown (o : Orch) : Orch :=
  { state := o.state
    liveNodes := []
    liveLinks := []
    destroySeq := o.destroySeq ++ o.liveLinks.reverse.map Resource.link
      ++ o.liveNodes.reverse.map Resource.node }

/-- A setup step of the Building phase: create a node, create a link, or a
step that errors (the injected failure). -/
inductive BuildStep where
  | addNode (name : String)
  | addLink (id : Nat)
  | failStep (msg : String)
  deriving DecidableEq, Repr

/-- Whether a setup step succeeds. -/
def stepOk : BuildStep → Bool
  | BuildStep.failStep _ => false
  | _ => true

/-- Names of the nodes a step sequence creates. -/
def nodesOf (steps : List BuildStep) : List String :=
  steps.filterMap fun s =>
    match s with
    | BuildStep.addNode n => some n
    | _ => none

/-- Ids of the links a step sequence creates. -/
def linksOf (steps : List BuildStep) : List Nat :=
  steps.filterMap fun s =>
    match s with
    | BuildStep.addLink i => some i
    | _ => none

/-- Modelled from the spec: the Building phase: apply setup steps in order;
on the first failing step tear down every resource created so far,
transition to Failed and surface the original error; when every step
succeeds, transition to Running (spec section 4.6); absent from src/. -/
def buildGo : Orch → List BuildStep → Orch × Option String
  | o, [] => ({ o with state := TopoState.running }, none)
  | o, BuildStep.addNode n :: rest =>
      buildGo { o with liveNodes := o.liveNodes ++ [n] } rest
  | o, BuildStep.addLink i :: rest =>
      buildGo { o with liveLinks := o.liveLinks ++ [i] } rest
  | o, BuildStep.failStep msg :: _ =>
      ({ teardown o with state := TopoState.failed }, some msg)

/-- Build a topology instance from scratch. -/
def buildTopo (steps : List BuildStep) : Orch × Option String :=
  buildGo initOrch steps

/-- Modelled from the spec: `stop()` tears the instance down and is a no-op
on an already-Stopped or Failed instance (spec section 4.6); absent from
src/. -/
def stop (o : Orch) : Orch :=
  match o.state with
  | TopoState.stopped => o
  | TopoState.failed => o
  | _ => { teardown o with state := TopoState.stopped }

/-! ## Link Fabric (spec section 4.2) -/

/-- Modelled from the spec: an interface belongs to one node and carries the
deterministic 0-based index assigned at creation (spec section 3); absent
from src/. -/
structure Iface where
  node : String
  idx : Nat
  deriving DecidableEq, Repr

/-- Modelled from the spec: the Link Fabric state: all interfaces in
creation order and all links as interface pairs (spec sections 3, 4.2);
absent from src/. -/
structure Fabric where
  ifaces : List Iface
  links : List (Iface × Iface)
  deriving DecidableEq, Repr

/-- The fabric with no interfaces and no links. -/
def emptyFabric : Fabric := { ifaces := [], links := [] }

/-- Number of interfaces currently on a node. -/
def ifCount (f : Fabric) (n : String) : Nat :=
  (f.ifaces.filter (fun i => i.node == n)).length

/-- Indices of a node's interfaces, in creation order. -/
def ifIdxs (f : Fabric) (n : String) : List Nat :=
  (f.ifaces.filter (fun i => i.node == n)).map Iface.idx

/-- Number of links incident to a node. -/
def incident (f : Fabric) (n : String) : Nat :=
  (f.links.filter (fun l => l.1.node == n || l.2.node == n)).length

/-- Modelled from the spec: `createLink(nodeA, nodeB)` creates one interface
on each endpoint, assigning each the count of interfaces already on that
node at call time (spec section 4.2); absent from src/. -/
def createLink (f : Fabric) (a b : String) : Fabric :=
  let ia : Iface := { node := a, idx := ifCount f a }
  let f1 : Fabric := { f with ifaces := f.ifaces ++ [ia] }
  let ib : Iface := { node := b, idx := ifCount f1 b }
  { ifaces := f1.ifaces ++ [ib], links := f.links ++ [(ia, ib)] }

/-- Wire a whole topology: create the given links in order from an empty
fabric. -/
def buildFabric (pairs : List (String × String)) : Fabric :=
  pairs.foldl (fun f p => createLink f p.1 p.2) emptyFabric

/-- The link sequence of exp1.py (src/exp1.py lines 34-40): h1-r1, r1-r2,
r2-h3, r1-h2. -/
def exp1Links : List (String × String) :=
  [("h1", "r1"), ("r1", "r2"), ("r2", "h3"), ("r1", "h2")]

/-- The link sequence of exp2.py (src/exp2.py lines 49-52): h1-s1, h2-s1,
s1-s2, s2-h3. -/
def exp2Links : List (String × String) :=
  [("h1", "s1"), ("h2", "s1"), ("s1", "s2"), ("s2", "h3")]

/-! ## Route installation (spec section 4.3) -/

/-- Modelled from the spec: the configuration error raised for a duplicate
destination pattern (spec sections 4.3, 7); absent from src/. -/
inductive RouteErr where
  | conflictingRoute
  deriving DecidableEq, Repr

/-- Modelled from the spec: `addRoute(node, destPat, nextHop)` fails with
ConflictingRoute when an existing entry has the identical destination
pattern, otherwise appends the new entry (spec section 4.3); absent from
src/. -/
def addRoute (rt : List RouteEntry) (p : RoutePat) (nh : NextHop) :
    Except RouteErr (List RouteEntry) :=
  if rt.any (fun e => e.dst == p) then Except.error RouteErr.conflictingRoute
  else Except.ok (rt ++ [{ dst := p, nextHop := nh }])

/-- State-passing form of addRoute: on failure the node keeps its previous
route table. -/
def addRouteOn (rt : List RouteEntry) (p : RoutePat) (nh : NextHop) :
    List RouteEntry × Option RouteErr :=
  match addRoute rt p nh with
  | Except.error err => (rt, some err)
  | Except.ok rt2 => (rt2, none)

/-! ## Flow installation (spec section 4.4) -/

/-- Two rules have the same key when priority and match predicate agree. -/
def sameKey (a b : FlowRule) : Bool :=
  a.priority == b.priority && a.matchPred == b.matchPred

/-- Modelled from the spec: `installFlow(switch, rule)` inserts a rule, or
replaces the rule with identical (priority, match) when one is installed
(spec section 4.4); absent from src/. -/
def installFlow (rules : List FlowRule) (r : FlowRule) : List FlowRule :=
  if rules.any (fun x => sameKey x r) then
    rules.map (fun x => if sameKey x r then r else x)
  else rules ++ [r]

/-! ## Command Executor (spec sections 4.5, 7) -/

/-- Modelled from the spec: the exit code of a probe command: a process exit
status, or Timeout when the configured limit elapsed (spec section 4.5);
absent from src/. -/
inductive ExitCode where
  | code (n : Nat)
  | timedOut
  deriving DecidableEq, Repr

/-- Modelled from the spec: the synchronous result {stdout, stderr,
exitCode} of `run(node, commandLine)` (spec section 4.5); absent from
src/. -/
structure ExecResult where
  stdout : String
  stderr : String
  exitCode : ExitCode
  deriving DecidableEq, Repr

/-- The observable behavior of an invoked process: how long it runs, its
final output and exit status, and the output captured by any earlier
instant. -/
structure ProcBehavior where
  runTime : Nat
  fullOut : String
  fullErr : String
  exitStatus : Nat
  outBy : Nat → String
  errBy : Nat → String

/-- Modelled from the spec: `run` returns the full output and exit status
when the process terminates within the limit, and otherwise returns
exitCode = Timeout with whatever output was captured so far (spec section
4.5); absent from src/. -/
def runCmd (limit : Nat) (b : ProcBehavior) : ExecResult :=
  if b.runTime ≤ limit then
    { stdout := b.fullOut, stderr := b.fullErr, exitCode := ExitCode.code b.exitStatus }
  else
    { stdout := b.outBy limit, stderr := b.errBy limit, exitCode := ExitCode.timedOut }

/-- An ExecutionError outcome: Timeout or a non-zero process exit. -/
def isExecError (r : ExecResult) : Bool :=
  r.exitCode != ExitCode.code 0

/-- Modelled from the spec: an immutable probe result (source node, target,
raw captured output, failure flag derived from the exit status) (spec
sections 3, 7); absent from src/. -/
structure Probe where
  src : String
  target : String
  raw : String
  failed : Bool
  deriving DecidableEq, Repr

/-- Record an execution result as a probe result. -/
def recordProbe (src target : String) (r : ExecResult) : Probe :=
  { src := src, target := target, raw := r.stdout, failed := isExecError r }

/-- Modelled from the spec: running a probe on a topology reports the
outcome as data: it appends a probe result and leaves the topology
instance untouched (spec section 7); absent from src/. -/
def runProbe (o : Orch) (ps : List Probe) (src target : String)
    (limit : Nat) (b : ProcBehavior) : Orch × List Probe :=
  (o, ps ++ [recordProbe src target (runCmd limit b)])

/-! ## exp1.py and exp2.py result construction (src/exp1.py, src/exp2.py) -/

/-- The 60-dash separator line written after every probe block
(src/exp1.py line 87, src/exp2.py lines 83 and 139). -/
def dashLine : String := String.mk (List.replicate 60 '-')

/-- The 60-equals banner line used by exp2.py headers
(src/exp2.py lines 68-70 and 121-123). -/
def eqLine : String := String.mk (List.replicate 60 '=')

/-- The ping test list of exp1.py as (source host, destination IP) pairs
(src/exp1.py lines 72-77). -/
def exp1PingTests : List (String × String) :=
  [("h1", "10.0.2.2"), ("h2", "10.0.2.2"), ("h3", "10.0.0.1"), ("h3", "10.0.3.2")]

/-- The chunks exp1.py appends to `results` for its ping tests: per test the
header line, the raw captured output, and the dashed separator
(src/exp1.py lines 79-87); `outOf src dst` stands for the output captured
by `host.cmd` for that probe. -/
def exp1Chunks (tests : List (String × String)) (outOf : String → String → String) :
    List String :=
  tests.foldl
    (fun acc t =>
      acc ++ ["From " ++ t.1 ++ " to " ++ t.2 ++ ":\n", outOf t.1 t.2,
              "\n" ++ dashLine ++ "\n"])
    []

/-- The full chunk list exp1.py passes to `writelines` (src/exp1.py lines
79-92). -/
def exp1ResultChunks (outOf : String → String → String) : List String :=
  exp1Chunks exp1PingTests outOf

/-- The content of result1.txt: the file is opened in write mode and the
chunks are written in order (src/exp1.py lines 90-92). -/
def exp1ResultFile (outOf : String → String → String) : String :=
  String.join (exp1ResultChunks outOf)

/-- The ping test list of exp2.py as (source name, destination IP,
destination name) triples; both phases iterate this same list
(src/exp2.py lines 72-75, 77, 133). -/
def exp2PingTests (h3addr : String) : List (String × String × String) :=
  [("h1", h3addr, "h3"), ("h2", h3addr, "h3")]

/-- The (source, destination IP) command pairs a phase of exp2.py executes,
in order (src/exp2.py lines 77-80 and 133-136). -/
def exp2PhaseProbes (h3addr : String) : List (String × String) :=
  (exp2PingTests h3addr).map (fun t => (t.1, t.2.1))

/-- The chunks a phase of exp2.py appends for its ping tests: per test the
header line naming source and destination hosts, the raw captured output,
and the dashed separator (src/exp2.py lines 77-83 and 133-139). -/
def exp2ProbeChunks (tests : List (String × String × String))
    (outOf : String → String → String) : List String :=
  tests.foldl
    (fun acc t =>
      acc ++ ["From " ++ t.1 ++ " to " ++ t.2.2 ++ ":\n", outOf t.1 t.2.1,
              "\n" ++ dashLine ++ "\n"])
    []

/-- The Phase 1 chunk list of exp2.py: banner header then the probe blocks
(src/exp2.py lines 68-83). -/
def exp2Phase1Chunks (h3addr : String) (outOf : String → String → String) :
    List String :=
  [eqLine ++ "\n",
   "PHASE 1: Pings with normal L2 switching (BEFORE custom OpenFlow rules)\n",
   eqLine ++ "\n\n"] ++ exp2ProbeChunks (exp2PingTests h3addr) outOf

/-- The Phase 2 chunk list of exp2.py: banner header, the documented
ovs-ofctl command lines, a separator, then the probe blocks (src/exp2.py
lines 121-139). -/
def exp2Phase2Chunks (h3addr : String) (outOf : String → String → String) :
    List String :=
  ["\n\n" ++ eqLine ++ "\n",
   "PHASE 2: Pings AFTER adding custom OpenFlow rules\n",
   eqLine ++ "\n",
   "\nOpenFlow commands used (run from another terminal):\n",
   "$ sudo ovs-ofctl show s1\n",
   "$ sudo ovs-ofctl dump-flows s1\n",
   "$ sudo ovs-ofctl del-flows s1\n",
   "$ sudo ovs-ofctl add-flow s1 \"priority=100,in_port=2,actions=drop\"\n",
   "$ sudo ovs-ofctl add-flow s1 \"priority=100,in_port=1,actions=output:3\"\n",
   "$ sudo ovs-ofctl add-flow s1 \"priority=100,in_port=3,actions=output:1\"\n",
   "\n" ++ dashLine ++ "\n\n"] ++ exp2ProbeChunks (exp2PingTests h3addr) outOf

/-- Opening a file in write mode and writing chunks replaces any previous
content (src/exp2.py lines 86-87, mode w). -/
def writeMode (content : List String) (_pre : Option String) : Option String :=
  some (String.join content)

/-- Opening a file in append mode and writing chunks appends to the existing
content (src/exp2.py lines 142-143, mode a). -/
def appendMode (content : List String) (pre : Option String) : Option String :=
  some (pre.getD "" ++ String.join content)

/-- The final content of result2.txt after a complete run of exp2.py:
Phase 1 written in write mode, Phase 2 in append mode; `pre` is any
pre-existing content of the file, `out1`/`out2` the captured ping outputs
of the two phases. -/
def exp2ResultFile (pre : Option String) (h3addr : String)
    (out1 out2 : String → String → String) : Option String :=
  appendMode (exp2Phase2Chunks h3addr out2) (writeMode (exp2Phase1Chunks h3addr out1) pre)

/-! ## Helper lemmas -/

theorem bestMatch_mem {ingress : Nat} {pkt : PacketFields} {rs : List FlowRule}
    {r : FlowRule} (h : bestMatch ingress pkt rs = some r) :
    r ∈ rs ∧ r.matchPred.matches ingress pkt = true := by
  have hmem := List.argmax_mem (f := FlowRule.priority) (Option.mem_def.mpr h)
  simpa using List.mem_filter.mp hmem

theorem bestMatch_maximal {ingress : Nat} {pkt : PacketFields} {rs : List FlowRule}
    {r : FlowRule} (h : bestMatch ingress pkt rs = some r) :
    ∀ r' ∈ rs, r'.matchPred.matches ingress pkt = true → r'.priority ≤ r.priority := by
  intro r' hmem hmatch
  exact List.le_of_mem_argmax (List.mem_filter.mpr ⟨hmem, by simpa using hmatch⟩)
    (Option.mem_def.mpr h)

theorem bestMatch_none {ingress : Nat} {pkt : PacketFields} {rs : List FlowRule}
    (h : bestMatch ingress pkt rs = none) :
    ∀ r' ∈ rs, r'.matchPred.matches ingress pkt = false := by
  intro r' hmem
  have hnil := List.argmax_eq_none.mp h
  have := List.filter_eq_nil_iff.mp hnil r' hmem
  simpa using this

theorem bestRoute_mem {dest : Nat} {rt : List RouteEntry} {e : RouteEntry}
    (h : bestRoute dest rt = some e) :
    e ∈ rt ∧ patMatches e.dst dest = true := by
  have hmem := List.argmax_mem (f := fun e : RouteEntry => e.dst.len) (Option.mem_def.mpr h)
  simpa using List.mem_filter.mp hmem

theorem bestRoute_maximal {dest : Nat} {rt : List RouteEntry} {e : RouteEntry}
    (h : bestRoute dest rt = some e) :
    ∀ e' ∈ rt, patMatches e'.dst dest = true → e'.dst.len ≤ e.dst.len := by
  intro e' hmem hmatch
  exact List.le_of_mem_argmax (f := fun x : RouteEntry => x.dst.len)
    (l := rt.filter (fun x => patMatches x.dst dest))
    (List.mem_filter.mpr ⟨hmem, by simpa using hmatch⟩) (Option.mem_def.mpr h)

theorem bestRoute_none {dest : Nat} {rt : List RouteEntry}
    (h : bestRoute dest rt = none) :
    ∀ e ∈ rt, patMatches e.dst dest = false := by
  intro e hmem
  have hnil := List.argmax_eq_none.mp h
  have := List.filter_eq_nil_iff.mp hnil e hmem
  simpa using this

/-! ## Claim theorems -/

/-- C1: `evaluate(switch, ingressPort, packetFields)` iterates the explicit
flow rules in descending priority order and returns the action of the first
rule whose predicate matches; if no explicit rule matches it returns the
normal fallback: flood, unless the switch is in learning mode and holds a
learned destination-port binding, in which case it outputs only to that
learned port.  Explicit rules take precedence over learned/flood behavior
regardless of priority.  With a single explicit rule (priority=100,
in_port=2, drop), any packet arriving on port 2 evaluates to drop
regardless of its field values, and a packet on port 1 evaluates to
flood-except-port-1. -/
theorem evaluate_rule_precedence_and_fallback (sw : Switch) (ingress : Nat)
    (pkt : PacketFields) :
    (∀ r : FlowRule, bestMatch ingress pkt sw.rules = some r →
      evaluate sw ingress pkt = r.action ∧ r ∈ sw.rules ∧
      r.matchPred.matches ingress pkt = true ∧
      ∀ r' ∈ sw.rules, r'.matchPred.matches ingress pkt = true →
        r'.priority ≤ r.priority) ∧
    (bestMatch ingress pkt sw.rules = none →
      (∀ r' ∈ sw.rules, r'.matchPred.matches ingress pkt = false) ∧
      evaluate sw ingress pkt =
        (if sw.learning then
          match destOf pkt with
          | some d =>
            match List.lookup d sw.learned with
            | some p => Action.output p
            | none => Action.flood
          | none => Action.flood
        else Action.flood)) ∧
    evaluate dropPort2Switch 2 pkt = Action.drop ∧
    evaluate dropPort2Switch 1 pkt = Action.flood ∧
    egressPorts dropPort2Switch 1 Action.flood = [2, 3] ∧
    evaluate learnSwitch 1 [("dst", "aa:bb")] = Action.output 3 ∧
    evaluate prio0Switch 1 [("dst", "aa:bb")] = Action.drop := by
  refine ⟨?_, ?_, by rfl, by rfl, by decide, by decide, by decide⟩
  · intro r h
    exact ⟨by simp [evaluate, h], (bestMatch_mem h).1, (bestMatch_mem h).2,
      bestMatch_maximal h⟩
  · intro h
    exact ⟨bestMatch_none h, by simp [evaluate, h]⟩

/-- Witness: the flow-evaluation claim applied to the concrete
priority=100/in_port=2/drop switch and a concrete packet. -/
theorem evaluate_rule_precedence_and_fallback_witness :
    evaluate dropPort2Switch 2 [("ip_dst", "10.0.5.5")] = Action.drop ∧
    ({ priority := 100, matchPred := { inPort := some 2, fieldEqs := [] },
       action := Action.drop } : FlowRule) ∈ dropPort2Switch.rules := by
  have h := (evaluate_rule_precedence_and_fallback dropPort2Switch 2
      [("ip_dst", "10.0.5.5")]).1
    { priority := 100, matchPred := { inPort := some 2, fieldEqs := [] },
      action := Action.drop } (by decide)
  exact ⟨h.1, h.2.1⟩

/-- C2: `resolveRoute(node, destIP)` returns the next hop of the matching
route entry with the longest destination pattern, and returns none rather
than raising when no entry on the node matches; with routes for
10.0.0.0/24 and 10.0.0.0/16 on the same node, destination 10.0.0.5
resolves via the /24 entry. -/
theorem resolveRoute_longest_match (rt : List RouteEntry) (dest : Nat) :
    (∀ e : RouteEntry, bestRoute dest rt = some e →
      resolveRoute rt dest = some e.nextHop ∧ e ∈ rt ∧
      patMatches e.dst dest = true ∧
      ∀ e' ∈ rt, patMatches e'.dst dest = true → e'.dst.len ≤ e.dst.len) ∧
    (resolveRoute rt dest = none ↔ ∀ e ∈ rt, patMatches e.dst dest = false) ∧
    resolveRoute demoRouteTable ip_10_0_0_5 = some (NextHop.via 42) := by
  refine ⟨?_, ?_, by decide⟩
  · intro e h
    exact ⟨by simp [resolveRoute, h], (bestRoute_mem h).1, (bestRoute_mem h).2,
      bestRoute_maximal h⟩
  · constructor
    · intro h
      cases hb : bestRoute dest rt with
      | none => exact bestRoute_none hb
      | some b => simp [resolveRoute, hb] at h
    · intro h
      have hnil : rt.filter (fun e => patMatches e.dst dest) = [] :=
        List.filter_eq_nil_iff.mpr (fun e he => by simp [h e he])
      simp [resolveRoute, bestRoute, hnil]

/-- Witness: the longest-pattern-match claim applied to the table holding a
/24 and a /16 route, at destination 10.0.0.5. -/
theorem resolveRoute_longest_match_witness :
    resolveRoute demoRouteTable ip_10_0_0_5 = some (NextHop.via 42) ∧
    ({ dst := { addr := ip_10_0_0_0, len := 24 }, nextHop := NextHop.via 42 } :
      RouteEntry) ∈ demoRouteTable := by
  have h := (resolveRoute_longest_match demoRouteTable ip_10_0_0_5).1
    { dst := { addr := ip_10_0_0_0, len := 24 }, nextHop := NextHop.via 42 }
    (by decide)
  exact ⟨h.1, h.2.1⟩

theorem buildGo_append_ok (o : Orch) (pre rest : List BuildStep)
    (h : ∀ s ∈ pre, stepOk s = true) :
    buildGo o (pre ++ rest) =
      buildGo { o with liveNodes := o.liveNodes ++ nodesOf pre,
                       liveLinks := o.liveLinks ++ linksOf pre } rest := by
  induction pre generalizing o with
  | nil => simp [nodesOf, linksOf]
  | cons s pre ih =>
    have h' : ∀ t ∈ pre, stepOk t = true := fun t ht => h t (List.mem_cons_of_mem _ ht)
    cases s with
    | addNode n =>
      simp only [List.cons_append, buildGo, List.append_eq]
      rw [ih _ h']
      simp [nodesOf, linksOf]
    | addLink i =>
      simp only [List.cons_append, buildGo, List.append_eq]
      rw [ih _ h']
      simp [nodesOf, linksOf]
    | failStep msg =>
      exact absurd (h _ (List.mem_cons_self _ _)) (by simp [stepOk])

/-- An instance in the Running state with live resources, for concrete
checks of the stop contract. -/
def demoOrch : Orch :=
  { state := TopoState.running, liveNodes := ["h1", "h2"], liveLinks := [7],
    destroySeq := [] }

/-- An already-stopped instance, for concrete checks of the stop
contract. -/
def stoppedOrch : Orch :=
  { state := TopoState.stopped, liveNodes := [], liveLinks := [],
    destroySeq := [Resource.node "h1"] }

/-- C3: if any setup step fails during Building, the Orchestrator tears
down every resource created so far in reverse creation order (links before
nodes), transitions to Failed, and surfaces the original error; no
namespace and no link remains live after the failed Building phase. -/
theorem buildTopo_failure_teardown (pre post : List BuildStep) (msg : String)
    (h : ∀ s ∈ pre, stepOk s = true) :
    buildTopo (pre ++ BuildStep.failStep msg :: post) =
      ({ state := TopoState.failed, liveNodes := [], liveLinks := [],
         destroySeq := (linksOf pre).reverse.map Resource.link
           ++ (nodesOf pre).reverse.map Resource.node }, some msg) := by
  unfold buildTopo
  rw [buildGo_append_ok _ _ _ h]
  simp [buildGo, teardown, initOrch]

/-- Witness: the teardown-on-failure claim at a failure injected after
creating three nodes and 2 of 3 declared links. -/
theorem buildTopo_failure_teardown_witness :
    buildTopo [BuildStep.addNode "h1", BuildStep.addNode "h2",
      BuildStep.addNode "h3", BuildStep.addLink 1, BuildStep.addLink 2,
      BuildStep.failStep "boom", BuildStep.addLink 3] =
      ({ state := TopoState.failed, liveNodes := [], liveLinks := [],
         destroySeq := [Resource.link 2, Resource.link 1, Resource.node "h3",
           Resource.node "h2", Resource.node "h1"] }, some "boom") := by
  have h := buildTopo_failure_teardown
    [BuildStep.addNode "h1", BuildStep.addNode "h2", BuildStep.addNode "h3",
     BuildStep.addLink 1, BuildStep.addLink 2] [BuildStep.addLink 3] "boom"
    (by decide)
  simpa using h

/-- C8: stop() is idempotent: on an already-Stopped or Failed instance it
is a no-op, a second stop() changes nothing and performs no duplicate
teardown side effects, and each live resource is destroyed at most once. -/
theorem stop_idempotent (o : Orch) :
    (o.state = TopoState.stopped ∨ o.state = TopoState.failed → stop o = o) ∧
    stop (stop o) = stop o ∧
    (stop (stop o)).destroySeq = (stop o).destroySeq ∧
    (o.destroySeq = [] → o.liveNodes.Nodup → o.liveLinks.Nodup →
      (stop o).destroySeq.Nodup) := by
  refine ⟨?_, ?_, ?_, ?_⟩
  · intro h
    cases h with
    | inl h => simp [stop, h]
    | inr h => simp [stop, h]
  · cases hs : o.state <;> simp [stop, hs, teardown]
  · cases hs : o.state <;> simp [stop, hs, teardown]
  · intro h1 h2 h3
    have key : ∀ (l3 : List Nat) (l2 : List String), l3.Nodup → l2.Nodup →
        (l3.reverse.map Resource.link ++ l2.reverse.map Resource.node).Nodup := by
      intro l3 l2 hl3 hl2
      refine List.Nodup.append ?_ ?_ ?_
      · exact (List.nodup_reverse.mpr hl3).map (fun a b hab => by simpa using hab)
      · exact (List.nodup_reverse.mpr hl2).map (fun a b hab => by simpa using hab)
      · intro x hx hy
        rw [List.mem_map] at hx hy
        obtain ⟨i, -, hi⟩ := hx
        obtain ⟨n, -, hn⟩ := hy
        rw [← hi] at hn
        exact absurd hn (by simp)
    cases hs : o.state with
    | stopped => simp [stop, hs, h1]
    | failed => simp [stop, hs, h1]
    | building => simpa [stop, hs, teardown, h1] using key _ _ h3 h2
    | running => simpa [stop, hs, teardown, h1] using key _ _ h3 h2

/-- Witness: the stop-idempotence claim at a running instance with live
resources and at an already-stopped instance. -/
theorem stop_idempotent_witness :
    stop stoppedOrch = stoppedOrch ∧ stop (stop demoOrch) = stop demoOrch ∧
    (stop demoOrch).destroySeq.Nodup := by
  exact ⟨(stop_idempotent stoppedOrch).1 (Or.inl rfl),
    (stop_idempotent demoOrch).2.1,
    (stop_idempotent demoOrch).2.2.2 rfl (by decide) (by decide)⟩

theorem ifaces_links_createLink (f : Fabric) (a b : String) (hab : a ≠ b) :
    (createLink f a b).ifaces =
      f.ifaces ++ [{ node := a, idx := ifCount f a }, { node := b, idx := ifCount f b }] ∧
    (createLink f a b).links =
      f.links ++ [({ node := a, idx := ifCount f a }, { node := b, idx := ifCount f b })] := by
  have hb : ifCount { f with ifaces := f.ifaces ++ [{ node := a, idx := ifCount f a }] } b
      = ifCount f b := by
    simp [ifCount, List.filter_append, List.filter_cons, hab]
  constructor <;> simp [createLink, hb]

theorem ifCount_createLink (f : Fabric) (a b n : String) (hab : a ≠ b) :
    ifCount (createLink f a b) n =
      ifCount f n + (if a = n then 1 else 0) + (if b = n then 1 else 0) := by
  simp only [ifCount, (ifaces_links_createLink f a b hab).1]
  by_cases ha : a = n <;> by_cases hbn : b = n <;>
    simp [List.filter_append, List.filter_cons, ha, hbn]

theorem incident_createLink (f : Fabric) (a b n : String) (hab : a ≠ b) :
    incident (createLink f a b) n =
      incident f n + (if a = n ∨ b = n then 1 else 0) := by
  simp only [incident, (ifaces_links_createLink f a b hab).2]
  by_cases ha : a = n <;> by_cases hbn : b = n <;>
    simp [List.filter_append, List.filter_cons, ha, hbn]

theorem ifIdxs_createLink (f : Fabric) (a b n : String) (hab : a ≠ b) :
    ifIdxs (createLink f a b) n =
      ifIdxs f n ++ (if a = n then [ifCount f a] else [])
        ++ (if b = n then [ifCount f b] else []) := by
  simp only [ifIdxs, (ifaces_links_createLink f a b hab).1]
  by_cases ha : a = n <;> by_cases hbn : b = n <;>
    simp [List.filter_append, List.filter_cons, ha, hbn]

theorem createLink_inv (f : Fabric) (a b : String) (hab : a ≠ b)
    (hidx : ∀ n, ifIdxs f n = List.range (ifCount f n))
    (hcnt : ∀ n, ifCount f n = incident f n) :
    (∀ n, ifIdxs (createLink f a b) n = List.range (ifCount (createLink f a b) n)) ∧
    (∀ n, ifCount (createLink f a b) n = incident (createLink f a b) n) := by
  constructor <;> intro n
  · rw [ifIdxs_createLink f a b n hab, ifCount_createLink f a b n hab]
    by_cases ha : a = n <;> by_cases hbn : b = n
    · exact absurd (ha.trans hbn.symm) hab
    · simp [ha, hbn, hidx n, List.range_succ]
    · simp [ha, hbn, hidx n, List.range_succ]
    · simp [ha, hbn, hidx n]
  · rw [ifCount_createLink f a b n hab, incident_createLink f a b n hab]
    by_cases ha : a = n <;> by_cases hbn : b = n
    · exact absurd (ha.trans hbn.symm) hab
    · simp [ha, hbn, hcnt n]
    · simp [ha, hbn, hcnt n]
    · simp [ha, hbn, hcnt n]

theorem buildFabric_loop_inv (pairs : List (String × String)) :
    ∀ f : Fabric, (∀ p ∈ pairs, p.1 ≠ p.2) →
      (∀ n, ifIdxs f n = List.range (ifCount f n)) →
      (∀ n, ifCount f n = incident f n) →
      (∀ n, ifIdxs (pairs.foldl (fun g p => createLink g p.1 p.2) f) n =
        List.range (ifCount (pairs.foldl (fun g p => createLink g p.1 p.2) f) n)) ∧
      (∀ n, ifCount (pairs.foldl (fun g p => createLink g p.1 p.2) f) n =
        incident (pairs.foldl (fun g p => createLink g p.1 p.2) f) n) := by
  induction pairs with
  | nil => intro f _ hidx hcnt; exact ⟨hidx, hcnt⟩
  | cons p rest ih =>
    intro f hd hidx hcnt
    have hp : p.1 ≠ p.2 := hd p (List.mem_cons_self _ _)
    have step := createLink_inv f p.1 p.2 hp hidx hcnt
    simpa only [List.foldl_cons] using
      ih (createLink f p.1 p.2) (fun q hq => hd q (List.mem_cons_of_mem _ hq))
        step.1 step.2

/-- C4: in every topology the number of interfaces on a node equals the
number of links incident to it, and each interface created by createLink
receives the index equal to the count of interfaces already present on
that node at call time — so interface indices are exactly the 0-based
creation order of that node's interfaces.  In particular the exp1.py link
order gives r1 the indices 0, 1, 2 and the exp2.py link order gives s1
the indices 0, 1, 2, matching the deterministic ethN / switch-port
numbering. -/
theorem fabric_iface_indices (pairs : List (String × String))
    (hd : ∀ p ∈ pairs, p.1 ≠ p.2) :
    (∀ n, ifCount (buildFabric pairs) n = incident (buildFabric pairs) n) ∧
    (∀ n, ifIdxs (buildFabric pairs) n = List.range (ifCount (buildFabric pairs) n)) ∧
    ifIdxs (buildFabric exp1Links) "r1" = [0, 1, 2] ∧
    ifIdxs (buildFabric exp2Links) "s1" = [0, 1, 2] := by
  have h := buildFabric_loop_inv pairs emptyFabric hd
    (fun n => by simp [ifIdxs, ifCount, emptyFabric])
    (fun n => by simp [ifCount, incident, emptyFabric])
  exact ⟨h.2, h.1, by decide, by decide⟩

/-- Witness: the interface-index claim at the concrete exp1.py and exp2.py
link sequences. -/
theorem fabric_iface_indices_witness :
    ifCount (buildFabric exp1Links) "r1" = incident (buildFabric exp1Links) "r1" ∧
    ifIdxs (buildFabric exp1Links) "r1" =
      List.range (ifCount (buildFabric exp1Links) "r1") ∧
    ifIdxs (buildFabric exp2Links) "s1" = [0, 1, 2] := by
  have h1 := fabric_iface_indices exp1Links (by decide)
  have h2 := fabric_iface_indices exp2Links (by decide)
  exact ⟨h1.1 "r1", h1.2.1 "r1", h2.2.2.2⟩

/-- C5: addRoute fails with ConflictingRoute when an existing entry on the
node has the identical destination pattern, and in that case the node's
route table is unchanged — no existing route is overwritten; otherwise the
new entry is appended and every existing entry is preserved. -/
theorem addRoute_conflict_unchanged (rt : List RouteEntry) (p : RoutePat)
    (nh : NextHop) :
    ((∃ e ∈ rt, e.dst = p) →
      addRoute rt p nh = Except.error RouteErr.conflictingRoute ∧
      addRouteOn rt p nh = (rt, some RouteErr.conflictingRoute)) ∧
    ((∀ e ∈ rt, e.dst ≠ p) →
      addRoute rt p nh = Except.ok (rt ++ [{ dst := p, nextHop := nh }]) ∧
      addRouteOn rt p nh = (rt ++ [{ dst := p, nextHop := nh }], none)) := by
  constructor
  · intro h
    have hany : rt.any (fun e => e.dst == p) = true := by
      obtain ⟨e, he, hdst⟩ := h
      exact List.any_eq_true.mpr ⟨e, he, by simp [hdst]⟩
    constructor <;> simp [addRoute, addRouteOn, hany]
  · intro h
    have hany : rt.any (fun e => e.dst == p) = false := by
      refine List.any_eq_false.mpr ?_
      intro e he
      simp [h e he]
    constructor <;> simp [addRoute, addRouteOn, hany]

/-- Witness: the conflicting-route claim at the demo table, re-adding its
existing /24 destination pattern with a different next hop. -/
theorem addRoute_conflict_unchanged_witness :
    addRouteOn demoRouteTable { addr := ip_10_0_0_0, len := 24 } (NextHop.via 9) =
      (demoRouteTable, some RouteErr.conflictingRoute) := by
  exact ((addRoute_conflict_unchanged demoRouteTable
      { addr := ip_10_0_0_0, len := 24 } (NextHop.via 9)).1
    ⟨{ dst := { addr := ip_10_0_0_0, len := 24 }, nextHop := NextHop.via 42 },
     List.mem_cons_self _ _, rfl⟩).2

theorem sameKey_key_eq {a b : FlowRule} (h : sameKey a b = true) :
    a.priority = b.priority ∧ a.matchPred = b.matchPred := by
  simpa [sameKey] using h

theorem sameKey_congr {r1 r2 : FlowRule} (h : sameKey r1 r2 = true) :
    ∀ x, sameKey x r2 = sameKey x r1 := by
  intro x
  obtain ⟨h1, h2⟩ := sameKey_key_eq h
  simp [sameKey, ← h1, ← h2]

theorem sameKey_refl (r : FlowRule) : sameKey r r = true := by
  simp [sameKey]

theorem installFlow_lastWrite {rules : List FlowRule} {r1 r2 : FlowRule}
    (h : sameKey r1 r2 = true) :
    installFlow (installFlow rules r1) r2 = installFlow rules r2 := by
  have hcong := sameKey_congr h
  by_cases hany : rules.any (fun x => sameKey x r1) = true
  · have hany2 : rules.any (fun x => sameKey x r2) = true := by
      simpa only [hcong] using hany
    obtain ⟨y, hy, hsk⟩ := List.any_eq_true.mp hany
    have hanyM : (rules.map (fun x => if sameKey x r1 then r1 else x)).any
        (fun x => sameKey x r2) = true := by
      refine List.any_eq_true.mpr ⟨r1, List.mem_map.mpr ⟨y, hy, by simp [hsk]⟩, ?_⟩
      simp [h]
    simp only [installFlow, hany, if_true, hanyM, hany2, List.map_map]
    refine List.map_congr_left ?_
    intro x _
    by_cases hx : sameKey x r1 = true <;>
      simp [Function.comp, hx, hcong, h, sameKey_refl]
  · have hf : rules.any (fun x => sameKey x r1) = false := by
      simpa using hany
    have hf2 : rules.any (fun x => sameKey x r2) = false := by
      simpa only [hcong] using hf
    have happ : (rules ++ [r1]).any (fun x => sameKey x r2) = true := by
      refine List.any_eq_true.mpr ⟨r1, ?_, by simp [h]⟩
      simp
    have hid : rules.map (fun x => if sameKey x r2 then r2 else x) = rules := by
      have := List.map_congr_left (l := rules)
        (f := fun x => if sameKey x r2 then r2 else x) (g := id)
        (fun x hx => by simp [List.any_eq_false.mp hf2 x hx])
      simpa using this
    simp [installFlow, hany, hf, hf2, happ, hid, h]

/-- C6: installing a rule whose (priority, match) pair is identical to an
already-installed rule replaces that rule rather than adding a second
entry, and the most recently installed rule's action is the one in effect
(last write wins at equal priority and match); installing the same rule
twice is equivalent to installing it once. -/
theorem installFlow_replace (rules : List FlowRule) (r1 r2 : FlowRule) :
    (rules.any (fun x => sameKey x r1) = true →
      (installFlow rules r1).length = rules.length) ∧
    r1 ∈ installFlow rules r1 ∧
    (∀ x ∈ installFlow rules r1, sameKey x r1 = true → x = r1) ∧
    (sameKey r1 r2 = true →
      installFlow (installFlow rules r1) r2 = installFlow rules r2) ∧
    installFlow (installFlow rules r1) r1 = installFlow rules r1 := by
  refine ⟨?_, ?_, ?_, fun h => installFlow_lastWrite h,
    installFlow_lastWrite (sameKey_refl r1)⟩
  · intro h
    simp [installFlow, h]
  · by_cases hany : rules.any (fun x => sameKey x r1) = true
    · obtain ⟨y, hy, hsk⟩ := List.any_eq_true.mp hany
      simp only [installFlow, hany, if_true]
      exact List.mem_map.mpr ⟨y, hy, by simp [hsk]⟩
    · have hf : rules.any (fun x => sameKey x r1) = false := by simpa using hany
      simp [installFlow, hf]
  · intro x hx hsk
    by_cases hany : rules.any (fun x => sameKey x r1) = true
    · simp only [installFlow, hany, if_true] at hx
      obtain ⟨y, hy, hxy⟩ := List.mem_map.mp hx
      by_cases hk : sameKey y r1 = true
      · simpa [hk] using hxy.symm
      · rw [if_neg hk] at hxy
        exact absurd (hxy ▸ hsk) hk
    · have hf : rules.any (fun x => sameKey x r1) = false := by simpa using hany
      simp only [installFlow, hf] at hx
      rcases List.mem_append.mp hx with hmem | hmem
      · exact absurd hsk (by simp [List.any_eq_false.mp hf x hmem])
      · simpa using hmem

/-- Witness: the last-write-wins claim, replacing the drop rule of the
priority=100/in_port=2 switch by an output rule with the identical key. -/
theorem installFlow_replace_witness :
    (installFlow dropPort2Switch.rules
      { priority := 100, matchPred := { inPort := some 2, fieldEqs := [] },
        action := Action.output 3 }).length = dropPort2Switch.rules.length ∧
    installFlow (installFlow dropPort2Switch.rules
      { priority := 100, matchPred := { inPort := some 2, fieldEqs := [] },
        action := Action.output 3 })
      { priority := 100, matchPred := { inPort := some 2, fieldEqs := [] },
        action := Action.output 3 } =
      installFlow dropPort2Switch.rules
        { priority := 100, matchPred := { inPort := some 2, fieldEqs := [] },
          action := Action.output 3 } := by
  have h := installFlow_replace dropPort2Switch.rules
    { priority := 100, matchPred := { inPort := some 2, fieldEqs := [] },
      action := Action.output 3 }
    { priority := 100, matchPred := { inPort := some 2, fieldEqs := [] },
      action := Action.output 3 }
  exact ⟨h.1 (by decide), h.2.2.2.2⟩

/-- A process that needs 5 time units but runs under a limit of 3, for the
concrete timeout check. -/
def slowBehavior : ProcBehavior :=
  { runTime := 5, fullOut := "1 received", fullErr := "", exitStatus := 0,
    outBy := fun t => if t < 5 then "PING 10.0.0.9" else "1 received",
    errBy := fun _ => "" }

/-- C7: run(node, commandLine) returns synchronously with {stdout, stderr,
exitCode}; when the configured timeout elapses it returns exitCode =
Timeout with the output captured so far rather than hanging, and an
ExecutionError outcome (Timeout or non-zero exit) is recorded as a Probe
result with the failure flag set and never tears down or alters the
running topology. -/
theorem runCmd_timeout_probe_nonfatal (o : Orch) (ps : List Probe)
    (src target : String) (limit : Nat) (b : ProcBehavior) :
    (limit < b.runTime →
      runCmd limit b = { stdout := b.outBy limit, stderr := b.errBy limit,
                         exitCode := ExitCode.timedOut }) ∧
    (isExecError (runCmd limit b) = true →
      (recordProbe src target (runCmd limit b)).failed = true) ∧
    (runProbe o ps src target limit b).1 = o ∧
    (runProbe o ps src target limit b).2 =
      ps ++ [recordProbe src target (runCmd limit b)] := by
  refine ⟨?_, ?_, rfl, rfl⟩
  · intro h
    rw [runCmd, if_neg (by omega)]
  · intro h
    simp [recordProbe, h]

/-- Witness: the timeout claim at a process exceeding its limit, checked on
a running topology instance. -/
theorem runCmd_timeout_probe_nonfatal_witness :
    runCmd 3 slowBehavior = { stdout := "PING 10.0.0.9", stderr := "",
                              exitCode := ExitCode.timedOut } ∧
    (recordProbe "h1" "10.0.0.9" (runCmd 3 slowBehavior)).failed = true ∧
    (runProbe demoOrch [] "h1" "10.0.0.9" 3 slowBehavior).1 = demoOrch := by
  have h := runCmd_timeout_probe_nonfatal demoOrch [] "h1" "10.0.0.9" 3 slowBehavior
  exact ⟨h.1 (by decide), h.2.1 (by decide), h.2.2.1⟩

/-- C9: a complete run of exp1.py executes exactly four ping probes in the
fixed order h1 to 10.0.2.2, h2 to 10.0.2.2, h3 to 10.0.0.1, h3 to
10.0.3.2, and result1.txt consists of one block per probe in that order —
the line naming source and destination, the raw captured output, and a
60-dash separator — whatever the individual ping outputs are. -/
theorem exp1_probe_order_and_file (outOf : String → String → String) :
    exp1PingTests =
      [("h1", "10.0.2.2"), ("h2", "10.0.2.2"), ("h3", "10.0.0.1"),
       ("h3", "10.0.3.2")] ∧
    exp1ResultChunks outOf =
      ["From h1 to 10.0.2.2:\n", outOf "h1" "10.0.2.2", "\n" ++ dashLine ++ "\n",
       "From h2 to 10.0.2.2:\n", outOf "h2" "10.0.2.2", "\n" ++ dashLine ++ "\n",
       "From h3 to 10.0.0.1:\n", outOf "h3" "10.0.0.1", "\n" ++ dashLine ++ "\n",
       "From h3 to 10.0.3.2:\n", outOf "h3" "10.0.3.2", "\n" ++ dashLine ++ "\n"] ∧
    exp1ResultFile outOf = String.join (exp1ResultChunks outOf) :=
  ⟨rfl, rfl, rfl⟩

/-- C10: a complete run of exp2.py opens result2.txt in write mode for
Phase 1 (truncating any pre-existing content) and in append mode for
Phase 2, so the final file is always the Phase 1 section followed by the
Phase 2 section, and both phases run the same two probes (h1 to h3's
address, then h2 to h3's address) in the same order. -/
theorem exp2_write_then_append (pre pre' : Option String) (h3addr : String)
    (out1 out2 : String → String → String) :
    exp2ResultFile pre h3addr out1 out2 =
      some (String.join (exp2Phase1Chunks h3addr out1) ++
        String.join (exp2Phase2Chunks h3addr out2)) ∧
    exp2ResultFile pre h3addr out1 out2 = exp2ResultFile pre' h3addr out1 out2 ∧
    exp2Phase1Chunks h3addr out1 =
      [eqLine ++ "\n",
       "PHASE 1: Pings with normal L2 switching (BEFORE custom OpenFlow rules)\n",
       eqLine ++ "\n\n"] ++ exp2ProbeChunks (exp2PingTests h3addr) out1 ∧
    exp2Phase2Chunks h3addr out2 =
      ["\n\n" ++ eqLine ++ "\n",
       "PHASE 2: Pings AFTER adding custom OpenFlow rules\n",
       eqLine ++ "\n",
       "\nOpenFlow commands used (run from another terminal):\n",
       "$ sudo ovs-ofctl show s1\n",
       "$ sudo ovs-ofctl dump-flows s1\n",
       "$ sudo ovs-ofctl del-flows s1\n",
       "$ sudo ovs-ofctl add-flow s1 \"priority=100,in_port=2,actions=drop\"\n",
       "$ sudo ovs-ofctl add-flow s1 \"priority=100,in_port=1,actions=output:3\"\n",
       "$ sudo ovs-ofctl add-flow s1 \"priority=100,in_port=3,actions=output:1\"\n",
       "\n" ++ dashLine ++ "\n\n"] ++ exp2ProbeChunks (exp2PingTests h3addr) out2 ∧
    exp2PhaseProbes h3addr = [("h1", h3addr), ("h2", h3addr)] :=
  ⟨rfl, rfl, rfl, rfl, rfl⟩

end NetEngine

